import Mathlib

set_option linter.unusedVariables false

/-!
Formal model of the alertmanager_gotify_bridge webhook translation bridge.

The development shallowly embeds the Go sources: the `bridge` configuration,
the inbound/outbound data model, the `handleCall` request handler (including
its per-alert transformation, metric counters, response aggregation and the
outbound dispatch), the `renderTemplate` denylist front end, and the
`Alert.Values` value-string scanner.  External collaborators (JSON
unmarshalling, `url.Parse`, the Prometheus template expander, and the
outbound HTTP POST) are modelled as components of an `Env` record so that
theorems can quantify over their behaviour.  Machine integers are modelled
as `Int` with explicit wrapping where overflow matters.
-/

namespace Bridge

/-- Substring search on character lists: does `pat` occur inside the list?
Models Go `strings.Contains`. -/
def containsSub (pat : List Char) : List Char → Bool
  | [] => pat.isEmpty
  | c :: rest => pat.isPrefixOf (c :: rest) || containsSub pat rest

/-- Go `strings.Contains s pat`. -/
def strContains (s pat : String) : Bool :=
  containsSub pat.data s.data

/-- Go map lookup on an association list (JSON objects have unique keys). -/
def lookupAnn (m : List (String × String)) (k : String) : Option String :=
  (m.find? (fun p => p.1 == k)).map (fun p => p.2)

/-- Inbound alert (struct `Alert` of the bridge). -/
structure Alert where
  Annotations : List (String × String)
  Status : String
  Labels : List (String × String)
  GeneratorURL : String
  StartsAt : String
  ValueString : String
  ExternalURL : String
deriving Repr, DecidableEq

/-- Inbound notification (struct `Notification`): a batch of alerts. -/
structure Notification where
  Alerts : List Alert
deriving Repr, DecidableEq

/-- Structured values stored in the outbound `extras` map. -/
inductive ExtraVal
  /-- a map of string to string, as in `extrasContentType` -/
  | strMap (m : List (String × String))
  /-- a map of string to (map of string to string), as in `extrasNotification` -/
  | nestedMap (m : List (String × List (String × String)))
deriving Repr, DecidableEq

/-- Outbound notification (struct `GotifyNotification`). -/
structure GotifyNotification where
  Title : String
  Message : String
  Priority : Int
  Extras : List (String × ExtraVal)
deriving Repr, DecidableEq

/-- The bridge configuration (struct `bridge`, plus the package-level
`extendedDetails` flag, which the handler reads alongside the struct
fields).  `timeout` is a Go `time.Duration`, i.e. a count of nanoseconds. -/
structure Config where
  debug : Bool
  timeout : Int
  titleAnnotation : String
  messageAnnotation : String
  priorityAnnotation : String
  defaultPriority : Int
  gotifyToken : String
  gotifyEndpoint : String
  dispatchErrors : Bool
  extendedDetails : Bool
deriving Repr, DecidableEq

/-- The six counters of the package-level `metrics` map. -/
structure Metrics where
  requests_received : Nat
  requests_invalid : Nat
  alerts_received : Nat
  alerts_invalid : Nat
  alerts_processed : Nat
  alerts_failed : Nat
deriving Repr, DecidableEq

/-- All-zero counters, as initialised at the top of `main`. -/
def zeroMetrics : Metrics := ⟨0, 0, 0, 0, 0, 0⟩

/-- Result of one outbound POST attempt (`http.NewRequest` + `client.Do`). -/
inductive DispatchResult
  /-- `http.NewRequest` returned an error -/
  | setupError
  /-- `client.Do` returned an error (connection failure or timeout) -/
  | networkError (msg : String)
  /-- a downstream HTTP response with its status code and status text -/
  | response (code : Nat) (status : String)
deriving Repr, DecidableEq

/-- External collaborators of the handler.  `unmarshal` models
`json.Unmarshal` on the request body; `urlParse` models `url.Parse`
(`none` is a parse error, which in Go leaves the assigned pointer `nil`);
`expand` models `template.NewTemplateExpander(...).Expand`, which receives
the template text, the alert data and the external URL; `dispatch` models
the outbound POST and receives the client timeout in nanoseconds, the
endpoint, the outbound notification and the `X-Gotify-Key` header value. -/
structure Env where
  unmarshal : String → Except String Notification
  urlParse : String → Option String
  expand : String → Alert → Option String → Except String String
  dispatch : Int → String → GotifyNotification → String → DispatchResult

/-- Two's-complement wrap of an integer into the `int64` range. -/
def int64wrap (x : Int) : Int :=
  (x + 2 ^ 63) % 2 ^ 64 - 2 ^ 63

/-- The timeout handed to the outbound `http.Client`: the code computes
`*svr.timeout * time.Second`, i.e. the configured duration (already in
nanoseconds) multiplied by `10^9`, wrapped as a 64-bit product. -/
def clientTimeout (svr : Config) : Int :=
  int64wrap (svr.timeout * 1000000000)

/-- Startup handling of the Gotify credential (`main`, the lines reading
`GOTIFY_TOKEN`): the token is read from the environment, then
unconditionally reassigned to the literal `"1"`, and only then compared
against the empty string; `none` models the `os.Exit(1)` branch. -/
def startupTokenCheck (envToken : String) : Option String :=
  let gotifyToken := envToken
  let gotifyToken := "1"
  if gotifyToken = "" then none else some gotifyToken

/-- Token selection at the top of `handleCall`: a non-empty `?token=`
query parameter overrides the configured token. -/
def requestToken (svrToken appToken : String) : String :=
  if appToken ≠ "" then appToken else svrToken

/-- Go `strconv.Atoi` as (value, ok): on a syntax error Go returns
`(0, err)`; on a range error it returns the clamped extreme with an error;
otherwise the parsed value with `ok`. -/
def goAtoiRaw (s : String) : Int × Bool :=
  let parseDigits : List Char → Option Nat := fun cs =>
    if cs.isEmpty then none
    else cs.foldl (fun acc c =>
      match acc with
      | none => none
      | some n => if c.isDigit then some (n * 10 + (c.toNat - 48)) else none)
      (some 0)
  let signed : Option Int :=
    match s.data with
    | '-' :: rest => (parseDigits rest).map (fun n => -(n : Int))
    | '+' :: rest => (parseDigits rest).map (fun n => (n : Int))
    | cs => (parseDigits cs).map (fun n => (n : Int))
  match signed with
  | none => (0, false)
  | some v =>
      if v < -(2 ^ 63) then (-(2 ^ 63), false)
      else if v ≥ 2 ^ 63 then (2 ^ 63 - 1, false)
      else (v, true)

/-- Go `strconv.Atoi` reduced to an `Option`: `some` exactly when Go
returns a nil error. -/
def goAtoi (s : String) : Option Int :=
  let (v, ok) := goAtoiRaw s
  if ok then some v else none

/-- The denylisted template function names, in the order of the `switch`
at the top of `renderTemplate`. -/
def denyList : List String :=
  ["query", "first", "label", "value", "strvalue", "safeHtml", "sortByLabel"]

/-- One arm of the `switch` in `renderTemplate`:
`strings.Contains(t, "\x7b\x7b f") || strings.Contains(t, "\x7b\x7bf")`. -/
def hasFuncToken (t f : String) : Bool :=
  strContains t ("\x7b\x7b " ++ f) || strContains t ("\x7b\x7b" ++ f)

/-- The `switch` in `renderTemplate` selecting `unsupportedFunc`. -/
def unsupportedFuncOf (t : String) : Option String :=
  if hasFuncToken t "query" then some "query"
  else if hasFuncToken t "first" then some "first"
  else if hasFuncToken t "label" then some "label"
  else if hasFuncToken t "value" then some "value"
  else if hasFuncToken t "strvalue" then some "strvalue"
  else if hasFuncToken t "safeHtml" then some "safeHtml"
  else if hasFuncToken t "sortByLabel" then some "sortByLabel"
  else none

/-- `renderTemplate`: reject denylisted functions before evaluation,
otherwise expand the template and wrap any expansion error. -/
def renderTemplate (env : Env) (templateString : String) (data : Alert)
    (externalURL : Option String) : Except String String :=
  match unsupportedFuncOf templateString with
  | some f =>
      Except.error ("error in Template: The bridge does not support the function " ++ f)
  | none =>
      match env.expand templateString data externalURL with
      | Except.error e => Except.error ("error in Template: " ++ e)
      | Except.ok r => Except.ok r

/-- Mutable locals of one iteration of the alert loop in `handleCall`:
`proceed`, `title`, `message`, `priority`, `extras`, plus the
handler-level `text` and `respCode` the iteration may overwrite. -/
structure TState where
  proceed : Bool
  title : String
  message : String
  priority : Int
  extras : List (String × ExtraVal)
  text : List String
  respCode : Nat
deriving Repr, DecidableEq

/-- Initial values of the per-alert locals (`handleCall`, top of the loop
body), threading the current `text` and `respCode`. -/
def initTState (svr : Config) (text0 : List String) (respCode0 : Nat) : TState :=
  ⟨true, "", "", svr.defaultPriority, [], text0, respCode0⟩

/-- First extended-details block: seed the HTML content-type extra and
prepend the colourised status marker to message and title. -/
def extendedBlock1 (extended : Bool) (alert : Alert) (s : TState) : TState :=
  if extended then
    let s := { s with extras := [("client::display", ExtraVal.strMap [("contentType", "text/html")])] }
    match alert.Status with
    | "resolved" =>
        { s with
          message := s.message ++ "<font style=\x27color: #00b339;\x27 data-mx-color=\x27#00b339\x27>RESOLVED</font><br/> "
          title := s.title ++ "[RES] " }
    | "firing" =>
        { s with
          message := s.message ++ "<font style=\x27color: #b31e00;\x27 data-mx-color=\x27#b31e00\x27>FIRING</font><br/> "
          title := s.title ++ "[FIR] " }
    | _ => s
  else s

/-- The diagnostic message substituted in dispatch-errors mode, from the
`fmt.Sprintf` used in all four failure branches (`b` is the raw body). -/
def dispatchErrMsg (e body : String) : String :=
  "    Error: " ++ e ++
    "\n\nAlso check Alertmanager, maybe an alert was raised!\n\nIcomming request:\n" ++ body

/-- Title-annotation step of the loop body: render the configured title
annotation; on a render failure or a missing annotation set
`proceed = false`, overwrite `text` and set `respCode` to 400, and in
dispatch-errors mode override proceed/title/message with a diagnostic. -/
def titleStep (svr : Config) (env : Env) (body : String) (externalURL : Option String)
    (alert : Alert) (s : TState) : TState :=
  match lookupAnn alert.Annotations svr.titleAnnotation with
  | some val =>
      match renderTemplate env val alert externalURL with
      | Except.error e =>
          let s := { s with proceed := false, text := [e], respCode := 400 }
          if svr.dispatchErrors then
            { s with proceed := true, title := "Alertmanager-Gotify-Bridge Error",
                     message := dispatchErrMsg e body }
          else s
      | Except.ok templated => { s with title := s.title ++ templated }
  | none =>
      let errMsg := "Missing annotation: " ++ svr.titleAnnotation
      let s := { s with proceed := false, text := [errMsg], respCode := 400 }
      if svr.dispatchErrors then
        { s with proceed := true, title := "Alertmanager-Gotify-Bridge Error",
                 message := dispatchErrMsg errMsg body }
      else s

/-- Message-annotation step: `message, err = renderTemplate(...)` assigns
the rendered text (empty on error) over the current message; failures are
handled like the title step. -/
def messageStep (svr : Config) (env : Env) (body : String) (externalURL : Option String)
    (alert : Alert) (s : TState) : TState :=
  match lookupAnn alert.Annotations svr.messageAnnotation with
  | some val =>
      match renderTemplate env val alert externalURL with
      | Except.error e =>
          let s := { s with message := "", proceed := false, text := [e], respCode := 400 }
          if svr.dispatchErrors then
            { s with proceed := true, title := "Alertmanager-Gotify-Bridge Error",
                     message := dispatchErrMsg e body }
          else s
      | Except.ok rendered => { s with message := rendered }
  | none =>
      let errMsg := "Missing annotation: " ++ svr.messageAnnotation
      let s := { s with proceed := false, text := [errMsg], respCode := 400 }
      if svr.dispatchErrors then
        { s with proceed := true, title := "Alertmanager-Gotify-Bridge Error",
                 message := dispatchErrMsg errMsg body }
      else s

/-- Priority-annotation step: `tmp, err := strconv.Atoi(val)`; the parsed
value is applied when `err == nil`. -/
def priorityStep (svr : Config) (alert : Alert) (s : TState) : TState :=
  match lookupAnn alert.Annotations svr.priorityAnnotation with
  | some val =>
      match goAtoi val with
      | some tmp => { s with priority := tmp }
      | none => s
  | none => s

/-- Priority branch of the legacy `handle_call` (main.go): the parsed
value is applied when `err != nil`, i.e. only when parsing fails. -/
def legacyPriorityStep (svr : Config) (alert : Alert) (s : TState) : TState :=
  match lookupAnn alert.Annotations svr.priorityAnnotation with
  | some val =>
      let (tmp, ok) := goAtoiRaw val
      if ok = false then { s with priority := tmp } else s
  | none => s

/-- Fixed leading text of the start-time decoration appended by the
second extended-details block. -/
def startsAtNotePre : String :=
  "<br/><br/><i><font style=\x27color: #999999;\x27 data-mx-color=\x27#999999\x27> alert created at: "

/-- Fixed trailing text of the start-time decoration. -/
def startsAtNoteSuf : String := "</font></i><br/>"

/-- Second extended-details block: append a generator-URL link (and the
click-through extra) when the generator URL starts with "http", then
append the start-time decoration built from `alert.StartsAt[:19]`.  The
returned flag is `true` when that byte slice is out of range, i.e. when
the Go code panics (`StartsAt` non-empty but shorter than 19 bytes). -/
def extendedBlock2 (extended : Bool) (alert : Alert) (s : TState) : TState × Bool :=
  if extended then
    let s :=
      if alert.GeneratorURL.startsWith "http" then
        { s with
          message := s.message ++ "<br/><a href=\x27" ++ alert.GeneratorURL ++ "\x27>go to source</a>"
          extras := s.extras ++ [("client::notification",
            ExtraVal.nestedMap [("click", [("url", alert.GeneratorURL)])])] }
      else s
    if alert.StartsAt ≠ "" then
      if 19 ≤ alert.StartsAt.length then
        ({ s with message := s.message ++ startsAtNotePre ++ alert.StartsAt.take 19 ++ startsAtNoteSuf },
         false)
      else (s, true)
    else (s, false)
  else (s, false)

/-- The full per-alert transformation (loop body of `handleCall` up to the
dispatch decision); the second component reports the slice panic of the
start-time decoration. -/
def transformAlert (svr : Config) (extended : Bool) (env : Env) (body : String)
    (externalURL : Option String) (alert : Alert)
    (text0 : List String) (respCode0 : Nat) : TState × Bool :=
  extendedBlock2 extended alert
    (priorityStep svr alert
      (messageStep svr env body externalURL alert
        (titleStep svr env body externalURL alert
          (extendedBlock1 extended alert (initTState svr text0 respCode0)))))

/-- The `externalURL` variable is declared once per request, outside the
alert loop: an alert with a non-empty `ExternalURL` reassigns it (to the
parse result, `nil`/`none` on a parse error); an alert with an empty
`ExternalURL` leaves the value carried over from earlier alerts. -/
def effectiveExternalURL (env : Env) (carried : Option String) (alert : Alert) :
    Option String :=
  if alert.ExternalURL ≠ "" then env.urlParse alert.ExternalURL else carried

/-- Handler-level mutable state threaded through the alert loop, plus the
trace `sent` of outbound POSTs actually issued (notification and
`X-Gotify-Key` header value of each `client.Do` call). -/
structure LoopState where
  metrics : Metrics
  text : List String
  respCode : Nat
  externalURL : Option String
  sent : List (GotifyNotification × String)
deriving Repr, DecidableEq

/-- Outcome of one loop iteration: continue, return from the handler
early (the `http.NewRequest` error branch), or panic. -/
inductive StepResult
  | next (st : LoopState)
  | abort (st : LoopState)
  | panic (st : LoopState)
deriving Repr, DecidableEq

/-- State carried by a `StepResult`, whatever the constructor. -/
def StepResult.state : StepResult → LoopState
  | .next st => st
  | .abort st => st
  | .panic st => st

/-- Dispatch part of the loop body (the `if proceed` branch): marshal and
POST the outbound notification; a request-construction error aborts the
whole handler after counting a failure; a `client.Do` error appends the
error text, sets a 500 response code and counts a failure; a non-200
response mirrors its code and counts a failure; a 200 appends the
per-index success note and counts a processed alert. -/
def dispatchStep (svr : Config) (env : Env) (idx : Nat) (token : String)
    (outbound : GotifyNotification) (st : LoopState) : StepResult :=
  match env.dispatch (clientTimeout svr) svr.gotifyEndpoint outbound token with
  | DispatchResult.setupError =>
      .abort { st with metrics := { st.metrics with alerts_failed := st.metrics.alerts_failed + 1 } }
  | DispatchResult.networkError e =>
      .next { st with
        sent := st.sent ++ [(outbound, token)]
        respCode := 500
        text := st.text ++ [e]
        metrics := { st.metrics with alerts_failed := st.metrics.alerts_failed + 1 } }
  | DispatchResult.response code status =>
      let st := { st with sent := st.sent ++ [(outbound, token)] }
      if code ≠ 200 then
        .next { st with
          respCode := code
          text := st.text ++ ["Gotify Error: " ++ status]
          metrics := { st.metrics with alerts_failed := st.metrics.alerts_failed + 1 } }
      else
        .next { st with
          text := st.text ++ ["Message " ++ toString idx ++ " dispatched"]
          metrics := { st.metrics with alerts_processed := st.metrics.alerts_processed + 1 } }

/-- One full iteration of the alert loop of `handleCall`: count the alert,
update the request-scoped `externalURL`, transform, then either dispatch
(`proceed`) or — only under `--debug` — mark the request incomplete and
count an invalid alert. -/
def processAlert (svr : Config) (env : Env) (body : String) (token : String)
    (idx : Nat) (alert : Alert) (st : LoopState) : StepResult :=
  let st := { st with
    metrics := { st.metrics with alerts_received := st.metrics.alerts_received + 1 }
    externalURL := effectiveExternalURL env st.externalURL alert }
  let tp :=
    transformAlert svr svr.extendedDetails env body st.externalURL alert st.text st.respCode
  let t := tp.1
  let st := { st with text := t.text, respCode := t.respCode }
  if tp.2 then .panic st
  else if t.proceed then
    dispatchStep svr env idx token ⟨t.title, t.message, t.priority, t.extras⟩ st
  else if svr.debug then
    .next { st with
      respCode := 400
      text := ["Incomplete request"]
      metrics := { st.metrics with alerts_invalid := st.metrics.alerts_invalid + 1 } }
  else .next st

/-- Result of running the alert loop to completion, early return, or panic. -/
inductive LoopOut
  | done (st : LoopState)
  | aborted (st : LoopState)
  | panicked (st : LoopState)
deriving Repr, DecidableEq

/-- The alert loop (`for idx, alert := range notification.Alerts`). -/
def runAlerts (svr : Config) (env : Env) (body : String) (token : String) :
    Nat → LoopState → List Alert → LoopOut
  | _, st, [] => .done st
  | idx, st, alert :: rest =>
      match processAlert svr env body token idx alert st with
      | .next st' => runAlerts svr env body token (idx + 1) st' rest
      | .abort st' => .aborted st'
      | .panic st' => .panicked st'

/-- How a request ends: a normal `http.Error(w, text, respCode)` response,
the early internal-server-error return from the request-setup branch, or a
runtime panic inside the handler. -/
inductive Outcome
  | response (body : String) (code : Nat)
  | abortedSetup
  | panicked
deriving Repr, DecidableEq

/-- Everything observable about one handled request. -/
structure HandlerResult where
  outcome : Outcome
  metrics : Metrics
  sent : List (GotifyNotification × String)
deriving Repr, DecidableEq

/-- The `handleCall` handler: count the request, pick the token, parse the
body, iterate the alerts and aggregate the response.  `queryToken` is the
value of the `?token=` query parameter (empty when absent), `m0` the
metric counters before the request. -/
def handleCall (svr : Config) (env : Env) (queryToken : String) (body : String)
    (m0 : Metrics) : HandlerResult :=
  let m := { m0 with requests_received := m0.requests_received + 1 }
  let token := requestToken svr.gotifyToken queryToken
  if body = "" then
    ⟨Outcome.response "No content sent" 400, m, []⟩
  else
    match env.unmarshal body with
    | Except.error e =>
        ⟨Outcome.response e 400, { m with requests_invalid := m.requests_invalid + 1 }, []⟩
    | Except.ok notification =>
        match runAlerts svr env body token 0 ⟨m, [], 200, none, []⟩ notification.Alerts with
        | LoopOut.done st =>
            ⟨Outcome.response (String.intercalate "\n" st.text) st.respCode, st.metrics, st.sent⟩
        | LoopOut.aborted st => ⟨Outcome.abortedSetup, st.metrics, st.sent⟩
        | LoopOut.panicked st => ⟨Outcome.panicked, st.metrics, st.sent⟩

/-! The `Values()` helper scans `ValueString` with the RE2 pattern
`\[ ?metric=\x27(.*?)\x27 ?labels=\x7b(.*?)\x7d ?value=(.*?) ?\]` and each
label string with `([^=, ]+?)=([^=, ]+)`.  The scanners below implement
exactly these two patterns under Go's leftmost-first / lazy-quantifier
semantics (`.` does not match a newline; `FindAllStringSubmatch` takes
non-overlapping matches left to right). -/

/-- Match a literal character sequence, returning the remainder. -/
def expectLit : List Char → List Char → Option (List Char)
  | [], cs => some cs
  | l :: ls, c :: cs => if c = l then expectLit ls cs else none
  | _ :: _, [] => none

/-- A greedy `\x20?` followed by a literal that does not start with a
space: consume one optional space, then the literal. -/
def spaceOptThen (lit : List Char) (cs : List Char) : Option (List Char) :=
  match cs with
  | ' ' :: rest => expectLit lit rest
  | _ => expectLit lit cs

/-- Lazy `(.*?)` capture: consume the shortest run of non-newline
characters after which `stop` (the compiled continuation of the pattern)
matches; returns the capture and the remainder after the continuation. -/
def lazyUntil (stop : List Char → Option (List Char)) :
    Nat → List Char → Option (List Char × List Char)
  | 0, _ => none
  | fuel + 1, cs =>
      match stop cs with
      | some rest => some ([], rest)
      | none =>
          match cs with
          | [] => none
          | c :: cs' =>
              if c = '\n' then none
              else
                match lazyUntil stop fuel cs' with
                | some (cap, rest) => some (c :: cap, rest)
                | none => none

/-- Match one metric record anchored at the current position, returning
the three captures (metric, labels text, value text) and the remainder. -/
def matchRecordAt (fuel : Nat) (cs : List Char) :
    Option ((String × String × String) × List Char) :=
  match cs with
  | '[' :: cs1 =>
      match spaceOptThen "metric=\x27".data cs1 with
      | none => none
      | some cs2 =>
          let stop1 : List Char → Option (List Char) := fun cs =>
            match cs with
            | '\x27' :: r => spaceOptThen "labels=\x7b".data r
            | _ => none
          match lazyUntil stop1 fuel cs2 with
          | none => none
          | some (c1, cs3) =>
              let stop2 : List Char → Option (List Char) := fun cs =>
                match cs with
                | '\x7d' :: r => spaceOptThen "value=".data r
                | _ => none
              match lazyUntil stop2 fuel cs3 with
              | none => none
              | some (c2, cs4) =>
                  let stop3 : List Char → Option (List Char) := fun cs =>
                    spaceOptThen "]".data cs
                  match lazyUntil stop3 fuel cs4 with
                  | none => none
                  | some (c3, cs5) =>
                      some ((String.mk c1, String.mk c2, String.mk c3), cs5)
  | _ => none

/-- All non-overlapping record matches, scanning left to right. -/
def findAllRecords : Nat → List Char → List (String × String × String)
  | 0, _ => []
  | fuel + 1, cs =>
      match matchRecordAt (fuel + 1) cs with
      | some (caps, rest) => caps :: findAllRecords fuel rest
      | none =>
          match cs with
          | [] => []
          | _ :: cs' => findAllRecords fuel cs'

/-- The record matches of `listRegx.FindAllStringSubmatch(a.ValueString, -1)`,
keeping only the three capture groups of each match. -/
def valuesRaw (s : String) : List (String × String × String) :=
  findAllRecords (s.data.length + 1) s.data

/-- The character class `[^=, ]` of the label pattern. -/
def labelClassChar (c : Char) : Bool :=
  !(c = '=' || c = ',' || c = ' ')

/-- Lazy `([^=, ]+?)` followed by `=`: the shortest non-empty run of class
characters ending right before an `=`; returns the key and the remainder
after the `=`. -/
def scanLabelKey : Nat → List Char → Option (List Char × List Char)
  | 0, _ => none
  | fuel + 1, cs =>
      match cs with
      | [] => none
      | c :: rest =>
          if labelClassChar c then
            match rest with
            | '=' :: rest2 => some ([c], rest2)
            | _ =>
                match scanLabelKey fuel rest with
                | some (k, r) => some (c :: k, r)
                | none => none
          else none

/-- Match one `key=value` label pair anchored at the current position:
lazy key, `=`, then a greedy non-empty `([^=, ]+)` value. -/
def matchLabelAt (fuel : Nat) (cs : List Char) :
    Option ((String × String) × List Char) :=
  match scanLabelKey fuel cs with
  | none => none
  | some (k, rest) =>
      let v := rest.takeWhile labelClassChar
      if v.isEmpty then none
      else some ((String.mk k, String.mk v), rest.drop v.length)

/-- All non-overlapping label matches, scanning left to right. -/
def findAllLabels : Nat → List Char → List (String × String)
  | 0, _ => []
  | fuel + 1, cs =>
      match matchLabelAt (fuel + 1) cs with
      | some (pair, rest) => pair :: findAllLabels fuel rest
      | none =>
          match cs with
          | [] => []
          | _ :: cs' => findAllLabels fuel cs'

/-- Go map write `labels[k] = v`: replace an existing key, else add. -/
def mapInsert (m : List (String × String)) (k v : String) : List (String × String) :=
  if m.any (fun p => p.1 == k) then
    m.map (fun p => if p.1 == k then (k, v) else p)
  else m ++ [(k, v)]

/-- Build the labels map of one record, in match order. -/
def buildLabels (labelsString : String) : List (String × String) :=
  (findAllLabels (labelsString.data.length + 1) labelsString.data).foldl
    (fun m p => mapInsert m p.1 p.2) []

/-- One parsed metric record (struct `AlertValues`).  `Value` carries the
float as an exact rational. -/
structure AlertValues where
  Metric : String
  Labels : List (String × String)
  Value : Rat
deriving Repr, DecidableEq

/-- `Alert.Values()`: scan the value string for records; parse each value
text with `strconv.ParseFloat(·, 32)` — modelled by the parameter `pf`,
`none` standing for a non-nil error — substituting `-1` on a parse error;
and collect the label pairs of each record into a map. -/
def Alert.Values (pf : String → Option Rat) (a : Alert) : List AlertValues :=
  (valuesRaw a.ValueString).map fun query =>
    let metric := query.1
    let labelsString := query.2.1
    let value : Rat :=
      match pf query.2.2 with
      | some v => v
      | none => -1
    ⟨metric, buildLabels labelsString, value⟩

/-! Observation helpers over the handler types. -/

/-- Whether a step result is the panic case. -/
def StepResult.isPanic : StepResult → Bool
  | .panic _ => true
  | _ => false

/-- Whether a loop result is the panic case. -/
def LoopOut.isPanic : LoopOut → Bool
  | .panicked _ => true
  | _ => false

/-- State carried by a `LoopOut`, whatever the constructor. -/
def LoopOut.state : LoopOut → LoopState
  | .done st => st
  | .aborted st => st
  | .panicked st => st

/-- The per-alert locals that feed the outbound notification (everything
except the handler-level `text` and `respCode`). -/
def TState.core (s : TState) : Bool × String × String × Int × List (String × ExtraVal) :=
  (s.proceed, s.title, s.message, s.priority, s.extras)

/-- The outbound POSTs newly issued by one loop step, relative to the
trace already recorded in `st`. -/
def sentDelta (r : StepResult) (st : LoopState) : List (GotifyNotification × String) :=
  (r.state).sent.drop st.sent.length

/-- The error produced by the title step of the transform, if any: the
missing-annotation message, or the render error. -/
def titleFailureMsg (svr : Config) (env : Env) (u : Option String) (a : Alert) :
    Option String :=
  match lookupAnn a.Annotations svr.titleAnnotation with
  | none => some ("Missing annotation: " ++ svr.titleAnnotation)
  | some val =>
      match renderTemplate env val a u with
      | Except.error e => some e
      | Except.ok _ => none

/-- The error produced by the message step of the transform, if any. -/
def messageFailureMsg (svr : Config) (env : Env) (u : Option String) (a : Alert) :
    Option String :=
  match lookupAnn a.Annotations svr.messageAnnotation with
  | none => some ("Missing annotation: " ++ svr.messageAnnotation)
  | some val =>
      match renderTemplate env val a u with
      | Except.error e => some e
      | Except.ok _ => none

/-! Concrete configurations, alerts and environments used to evaluate the
model on specific requests. -/

/-- A configuration with all defaults: `--timeout 5s` (5e9 ns), title
annotation `summary`, message annotation `description`, priority
annotation `priority`, default priority 5, no debug, no dispatch-errors,
no extended details. -/
def svrBase : Config :=
  ⟨false, 5000000000, "summary", "description", "priority", 5, "tok",
   "http://e/message", false, false⟩

/-- `svrBase` with extended details enabled. -/
def svrExt : Config := { svrBase with extendedDetails := true }

/-- `svrBase` with dispatch-errors enabled. -/
def svrDisp : Config := { svrBase with dispatchErrors := true }

/-- An alert carrying only annotations. -/
def mkAnnAlert (ann : List (String × String)) : Alert := ⟨ann, "", [], "", "", "", ""⟩

/-- A downstream that always answers 200. -/
def okDispatch : Int → String → GotifyNotification → String → DispatchResult :=
  fun _ _ _ _ => DispatchResult.response 200 "200 OK"

/-- An environment whose expander returns the template text untouched. -/
def envId : Env :=
  ⟨fun _ => Except.error "unused", fun s => some s, fun t _ _ => Except.ok t, okDispatch⟩

/-- Body "B" parses to three alerts: alerts 0 and 2 carry both
annotations, alert 1 misses the message annotation. -/
def envC1 : Env :=
  ⟨fun b =>
    if b = "B" then
      Except.ok ⟨[mkAnnAlert [("summary", "t1"), ("description", "m1")],
                  mkAnnAlert [("summary", "t2")],
                  mkAnnAlert [("summary", "t3"), ("description", "m3")]]⟩
    else Except.error "bad",
   fun s => some s, fun t _ _ => Except.ok t, okDispatch⟩

/-- A single alert whose priority annotation is the parseable string "7". -/
def envC2 : Env :=
  ⟨fun _ => Except.ok ⟨[mkAnnAlert [("summary", "t"), ("description", "m"), ("priority", "7")]]⟩,
   fun s => some s, fun t _ _ => Except.ok t, okDispatch⟩

/-- A single well-annotated alert with the short start time "2023". -/
def envC5 : Env :=
  ⟨fun _ => Except.ok ⟨[{ mkAnnAlert [("summary", "t"), ("description", "m")] with
      StartsAt := "2023" }]⟩,
   fun s => some s, fun t _ _ => Except.ok t, okDispatch⟩

/-- A single well-annotated alert with a full RFC3339 start time. -/
def envC5w : Env :=
  ⟨fun _ => Except.ok ⟨[{ mkAnnAlert [("summary", "t"), ("description", "m")] with
      StartsAt := "2024-01-02T03:04:05.000Z" }]⟩,
   fun s => some s, fun t _ _ => Except.ok t, okDispatch⟩

/-- A well-annotated alert with the given external URL. -/
def extAlert (ext : String) : Alert :=
  { mkAnnAlert [("summary", "T"), ("description", "M")] with ExternalURL := ext }

/-- Two bodies differing only in alert 0's external URL; the expander
renders the template text followed by the external URL it was given
(as the Prometheus expander's `externalURL` template function can). -/
def envC6 : Env :=
  ⟨fun b =>
    if b = "b1" then Except.ok ⟨[extAlert "http://one.example", extAlert ""]⟩
    else Except.ok ⟨[extAlert "", extAlert ""]⟩,
   fun s => some s,
   fun t _ u => Except.ok (t ++ (match u with | some s => s | none => "")),
   okDispatch⟩

/-- A downstream whose `client.Do` always fails with a connection error. -/
def envNet : Env :=
  ⟨fun _ => Except.error "unused", fun s => some s, fun t _ _ => Except.ok t,
   fun _ _ _ _ => DispatchResult.networkError "dial tcp: connection refused"⟩

/-- An alert with a message annotation but no title annotation. -/
def alC8 : Alert := mkAnnAlert [("description", "hello")]

/-- An alert with a priority annotation only. -/
def alPrio : Alert := mkAnnAlert [("priority", "7")]

/-- The alert of the `Values()` example. -/
def exampleValueAlert : Alert :=
  { mkAnnAlert [] with ValueString := "[ metric=\x27up\x27 labels=\x7bjob=api\x7d value=0 ]" }

/-- A minimal float parser fixture: maps "0" to 0 and fails elsewhere. -/
def pf0 : String → Option Rat := fun s => if s = "0" then some 0 else none

/-- An alert whose value string holds one record with unparseable value
text. -/
def badValueAlert : Alert :=
  { mkAnnAlert [] with ValueString := "[ metric=\x27m\x27 labels=\x7ba=b\x7d value=xx ]" }

/-- An empty loop state over zeroed metrics. -/
def stW1 : LoopState := ⟨zeroMetrics, [], 200, none, []⟩

/-- A loop state with different text and code but the same external URL. -/
def stW2 : LoopState := ⟨zeroMetrics, ["x"], 400, none, []⟩

/-- A sample outbound notification. -/
def obW : GotifyNotification := ⟨"T", "M", 5, []⟩

/-! Helper lemmas about the denylist front end. -/

theorem unsupportedFuncOf_mem {t g : String} (h : unsupportedFuncOf t = some g) :
    g ∈ denyList ∧ hasFuncToken t g = true := by
  unfold unsupportedFuncOf at h
  split_ifs at h
  all_goals simp_all [denyList]

theorem unsupportedFuncOf_none {t : String} (h : unsupportedFuncOf t = none) :
    ∀ f ∈ denyList, hasFuncToken t f = false := by
  unfold unsupportedFuncOf at h
  split_ifs at h
  intro f hf
  simp [denyList] at hf
  rcases hf with rfl | rfl | rfl | rfl | rfl | rfl | rfl <;> simp_all

theorem unsupportedFuncOf_first {t f : String} (h : hasFuncToken t f = true)
    (hf : f ∈ denyList) (huniq : ∀ g ∈ denyList, g ≠ f → hasFuncToken t g = false) :
    unsupportedFuncOf t = some f := by
  simp [denyList] at hf
  have hu : ∀ g, (g = "query" ∨ g = "first" ∨ g = "label" ∨ g = "value" ∨
      g = "strvalue" ∨ g = "safeHtml" ∨ g = "sortByLabel") → g ≠ f →
      hasFuncToken t g = false := by
    intro g hg hne
    exact huniq g (by simp [denyList, hg]) hne
  rcases hf with rfl | rfl | rfl | rfl | rfl | rfl | rfl <;>
    unfold unsupportedFuncOf <;>
    simp_all [show ∀ a b : String, a ≠ b ↔ ¬(a = b) from fun a b => Iff.rfl]

/-! Helper lemmas about the slice panic of the start-time decoration. -/

theorem extendedBlock2_panic (e : Bool) (a : Alert) (s : TState) :
    (extendedBlock2 e a s).2 = true ↔
      e = true ∧ a.StartsAt ≠ "" ∧ a.StartsAt.length < 19 := by
  cases e <;> simp [extendedBlock2] <;> split_ifs <;> simp_all

theorem transformAlert_panic (svr : Config) (e : Bool) (env : Env) (body : String)
    (u : Option String) (a : Alert) (t0 : List String) (r0 : Nat) :
    (transformAlert svr e env body u a t0 r0).2 = true ↔
      e = true ∧ a.StartsAt ≠ "" ∧ a.StartsAt.length < 19 := by
  unfold transformAlert
  exact extendedBlock2_panic e a _

theorem dispatchStep_not_panic (svr : Config) (env : Env) (idx : Nat) (token : String)
    (outbound : GotifyNotification) (st : LoopState) :
    (dispatchStep svr env idx token outbound st).isPanic = false := by
  unfold dispatchStep
  cases h : env.dispatch (clientTimeout svr) svr.gotifyEndpoint outbound token <;>
    simp [StepResult.isPanic] <;> split_ifs <;> simp [StepResult.isPanic]

theorem processAlert_not_panic (svr : Config) (env : Env) (body token : String)
    (idx : Nat) (a : Alert) (st : LoopState)
    (h : a.StartsAt = "" ∨ 19 ≤ a.StartsAt.length) :
    (processAlert svr env body token idx a st).isPanic = false := by
  unfold processAlert
  simp only []
  have hp : (transformAlert svr svr.extendedDetails env body
      (effectiveExternalURL env st.externalURL a) a st.text st.respCode).2 = false := by
    rw [← Bool.not_eq_true, transformAlert_panic]
    rcases h with h | h <;> simp [h]
  simp [hp]
  split_ifs <;> first
    | exact dispatchStep_not_panic _ _ _ _ _ _
    | simp [StepResult.isPanic]

theorem runAlerts_not_panic (svr : Config) (env : Env) (body token : String) :
    ∀ (alerts : List Alert) (idx : Nat) (st : LoopState),
      (∀ a ∈ alerts, a.StartsAt = "" ∨ 19 ≤ a.StartsAt.length) →
      (runAlerts svr env body token idx st alerts).isPanic = false := by
  intro alerts
  induction alerts with
  | nil => intro idx st h; simp [runAlerts, LoopOut.isPanic]
  | cons a rest ih =>
      intro idx st h
      have ha := h a (by simp)
      have hrest : ∀ x ∈ rest, x.StartsAt = "" ∨ 19 ≤ x.StartsAt.length := by
        intro x hx; exact h x (by simp [hx])
      have hnp := processAlert_not_panic svr env body token idx a st ha
      unfold runAlerts
      cases hpa : processAlert svr env body token idx a st with
      | next st' => exact ih (idx + 1) st' hrest
      | abort st' => simp [LoopOut.isPanic]
      | panic st' => rw [hpa] at hnp; simp [StepResult.isPanic] at hnp

theorem handleCall_not_panic (svr : Config) (env : Env) (queryToken body : String)
    (m0 : Metrics)
    (h : ∀ n, env.unmarshal body = Except.ok n →
          ∀ a ∈ n.Alerts, a.StartsAt = "" ∨ 19 ≤ a.StartsAt.length) :
    (handleCall svr env queryToken body m0).outcome ≠ Outcome.panicked := by
  unfold handleCall
  split_ifs with hb
  · simp
  · cases hu : env.unmarshal body with
    | error e => simp
    | ok n =>
        have hl := runAlerts_not_panic svr env body
          (requestToken svr.gotifyToken queryToken) n.Alerts 0
          ⟨{ m0 with requests_received := m0.requests_received + 1 }, [], 200, none, []⟩
          (h n hu)
        cases hr : runAlerts svr env body (requestToken svr.gotifyToken queryToken) 0
            ⟨{ m0 with requests_received := m0.requests_received + 1 }, [], 200, none, []⟩
            n.Alerts with
        | done st => simp [hr]
        | aborted st => simp [hr]
        | panicked st => rw [hr] at hl; simp [LoopOut.isPanic] at hl

theorem extendedBlock2_decoration (a : Alert) (s : TState)
    (h1 : a.StartsAt ≠ "") (h2 : 19 ≤ a.StartsAt.length) :
    (extendedBlock2 true a s).2 = false ∧
      ∃ pre, ((extendedBlock2 true a s).1).message =
        pre ++ startsAtNotePre ++ a.StartsAt.take 19 ++ startsAtNoteSuf := by
  unfold extendedBlock2
  split_ifs with hg <;> simp_all
  · exact ⟨s.message ++ "<br/><a href=\x27" ++ a.GeneratorURL ++ "\x27>go to source</a>", rfl⟩
  · exact ⟨s.message, rfl⟩

/-! Helper lemmas: the per-alert locals that feed the outbound
notification do not depend on the handler-level `text`/`respCode` the
transform was seeded with. -/

theorem extendedBlock1_core (e : Bool) (a : Alert) {s s' : TState}
    (h : s.core = s'.core) :
    (extendedBlock1 e a s).core = (extendedBlock1 e a s').core := by
  simp only [TState.core, Prod.ext_iff] at h ⊢
  obtain ⟨h1, h2, h3, h4, h5⟩ := h
  unfold extendedBlock1
  cases e <;> simp
  · exact ⟨h1, h2, h3, h4, h5⟩
  · split <;> simp_all

theorem titleStep_core (svr : Config) (env : Env) (body : String) (u : Option String)
    (a : Alert) {s s' : TState} (h : s.core = s'.core) :
    (titleStep svr env body u a s).core = (titleStep svr env body u a s').core := by
  simp only [TState.core, Prod.ext_iff] at h ⊢
  obtain ⟨h1, h2, h3, h4, h5⟩ := h
  unfold titleStep
  cases hl : lookupAnn a.Annotations svr.titleAnnotation with
  | none => split_ifs <;> simp_all
  | some val =>
      cases hr : renderTemplate env val a u with
      | error e => split_ifs <;> simp_all
      | ok templated => simp_all

theorem messageStep_core (svr : Config) (env : Env) (body : String) (u : Option String)
    (a : Alert) {s s' : TState} (h : s.core = s'.core) :
    (messageStep svr env body u a s).core = (messageStep svr env body u a s').core := by
  simp only [TState.core, Prod.ext_iff] at h ⊢
  obtain ⟨h1, h2, h3, h4, h5⟩ := h
  unfold messageStep
  cases hl : lookupAnn a.Annotations svr.messageAnnotation with
  | none => split_ifs <;> simp_all
  | some val =>
      cases hr : renderTemplate env val a u with
      | error e => split_ifs <;> simp_all
      | ok rendered => simp_all

theorem priorityStep_core (svr : Config) (a : Alert) {s s' : TState}
    (h : s.core = s'.core) :
    (priorityStep svr a s).core = (priorityStep svr a s').core := by
  simp only [TState.core, Prod.ext_iff] at h ⊢
  obtain ⟨h1, h2, h3, h4, h5⟩ := h
  unfold priorityStep
  cases hl : lookupAnn a.Annotations svr.priorityAnnotation with
  | none => simp_all
  | some val => cases hp : goAtoi val <;> simp_all

theorem extendedBlock2_core (e : Bool) (a : Alert) {s s' : TState}
    (h : s.core = s'.core) :
    ((extendedBlock2 e a s).1).core = ((extendedBlock2 e a s').1).core ∧
      (extendedBlock2 e a s).2 = (extendedBlock2 e a s').2 := by
  simp only [TState.core, Prod.ext_iff] at h
  obtain ⟨h1, h2, h3, h4, h5⟩ := h
  unfold extendedBlock2
  cases e <;> split_ifs <;>
    simp_all [TState.core, Prod.ext_iff]

theorem transformAlert_core (svr : Config) (e : Bool) (env : Env) (body : String)
    (u : Option String) (a : Alert) (t1 t2 : List String) (r1 r2 : Nat) :
    ((transformAlert svr e env body u a t1 r1).1).core
        = ((transformAlert svr e env body u a t2 r2).1).core ∧
      (transformAlert svr e env body u a t1 r1).2
        = (transformAlert svr e env body u a t2 r2).2 := by
  unfold transformAlert
  have h0 : (initTState svr t1 r1).core = (initTState svr t2 r2).core := rfl
  exact extendedBlock2_core e a
    (priorityStep_core svr a
      (messageStep_core svr env body u a
        (titleStep_core svr env body u a
          (extendedBlock1_core e a h0))))

/-! Helper lemmas about the outbound trace of one loop step. -/

theorem dispatchStep_sent (svr : Config) (env : Env) (idx : Nat) (token : String)
    (o : GotifyNotification) (st : LoopState) :
    ((dispatchStep svr env idx token o st).state).sent =
      st.sent ++
        (match env.dispatch (clientTimeout svr) svr.gotifyEndpoint o token with
         | DispatchResult.setupError => []
         | _ => [(o, token)]) := by
  cases h : env.dispatch (clientTimeout svr) svr.gotifyEndpoint o token with
  | setupError => simp [dispatchStep, h, StepResult.state]
  | networkError e => simp [dispatchStep, h, StepResult.state]
  | response code status =>
      simp only [dispatchStep, h]
      split_ifs <;> simp [StepResult.state]

theorem processAlert_sent_dep (svr : Config) (env : Env) (body token : String)
    (idx : Nat) (a : Alert) (st st' : LoopState)
    (h : st.externalURL = st'.externalURL) :
    sentDelta (processAlert svr env body token idx a st) st
      = sentDelta (processAlert svr env body token idx a st') st' := by
  unfold processAlert
  rw [h]
  obtain ⟨hcore, hpan⟩ := transformAlert_core svr svr.extendedDetails env body
    (effectiveExternalURL env st'.externalURL a) a st.text st'.text st.respCode st'.respCode
  simp only [TState.core, Prod.ext_iff] at hcore
  obtain ⟨h1, h2, h3, h4, h5⟩ := hcore
  simp only []
  rw [hpan, h1, h2, h3, h4, h5]
  split_ifs with hp hpr hdb
  · simp [sentDelta, StepResult.state, List.drop_length]
  · simp only [sentDelta, dispatchStep_sent]
    simp [List.drop_left]
  · simp [sentDelta, StepResult.state, List.drop_length]
  · simp [sentDelta, StepResult.state, List.drop_length]

theorem processAlert_sent_token (svr : Config) (env : Env) (body token : String)
    (idx : Nat) (a : Alert) (st : LoopState) :
    ∀ p ∈ ((processAlert svr env body token idx a st).state).sent,
      p ∈ st.sent ∨ p.2 = token := by
  unfold processAlert
  simp only []
  split_ifs with hp hpr
  · intro p hmem; exact Or.inl hmem
  · intro p hmem
    rw [dispatchStep_sent] at hmem
    simp only [List.mem_append] at hmem
    rcases hmem with hmem | hmem
    · exact Or.inl hmem
    · right
      cases hdr : env.dispatch (clientTimeout svr) svr.gotifyEndpoint _ token <;>
        rw [hdr] at hmem <;> simp_all
  · intro p hmem; exact Or.inl hmem
  · intro p hmem; exact Or.inl hmem

theorem runAlerts_sent_token (svr : Config) (env : Env) (body token : String) :
    ∀ (alerts : List Alert) (idx : Nat) (st : LoopState),
      (∀ p ∈ st.sent, p.2 = token) →
      ∀ p ∈ ((runAlerts svr env body token idx st alerts).state).sent, p.2 = token := by
  intro alerts
  induction alerts with
  | nil => intro idx st h; simpa [runAlerts, LoopOut.state] using h
  | cons a rest ih =>
      intro idx st h
      have hstep := processAlert_sent_token svr env body token idx a st
      unfold runAlerts
      cases hpa : processAlert svr env body token idx a st with
      | next st' =>
          refine ih (idx + 1) st' ?_
          intro p hmem
          rcases hstep p (by rw [hpa] at hstep ⊢; exact hmem) with hin | htok
          · exact h p hin
          · exact htok
      | abort st' =>
          intro p hmem
          rw [hpa] at hstep
          rcases hstep p hmem with hin | htok
          · exact h p hin
          · exact htok
      | panic st' =>
          intro p hmem
          rw [hpa] at hstep
          rcases hstep p hmem with hin | htok
          · exact h p hin
          · exact htok

theorem handleCall_sent_token (svr : Config) (env : Env) (queryToken body : String)
    (m0 : Metrics) :
    ∀ p ∈ (handleCall svr env queryToken body m0).sent,
      p.2 = requestToken svr.gotifyToken queryToken := by
  unfold handleCall
  split_ifs with hb
  · simp
  · cases hu : env.unmarshal body with
    | error e => simp
    | ok n =>
        have hl := runAlerts_sent_token svr env body
          (requestToken svr.gotifyToken queryToken) n.Alerts 0
          ⟨{ m0 with requests_received := m0.requests_received + 1 }, [], 200, none, []⟩
          (by intro p hmem; simp at hmem)
        cases hr : runAlerts svr env body (requestToken svr.gotifyToken queryToken) 0
            ⟨{ m0 with requests_received := m0.requests_received + 1 }, [], 200, none, []⟩
            n.Alerts with
        | done st => rw [hr] at hl; simpa [LoopOut.state, hr] using hl
        | aborted st => rw [hr] at hl; simpa [LoopOut.state, hr] using hl
        | panicked st => rw [hr] at hl; simpa [LoopOut.state, hr] using hl

/-! Helper lemmas characterising the title/message steps and the steps
that follow them. -/

theorem titleStep_fail (svr : Config) (env : Env) (body : String) (u : Option String)
    (a : Alert) (s : TState) (e : String) (hd : svr.dispatchErrors = true)
    (hf : titleFailureMsg svr env u a = some e) :
    titleStep svr env body u a s =
      { s with proceed := true, title := "Alertmanager-Gotify-Bridge Error",
               message := dispatchErrMsg e body, text := [e], respCode := 400 } := by
  unfold titleFailureMsg at hf
  unfold titleStep
  cases hl : lookupAnn a.Annotations svr.titleAnnotation with
  | none => simp_all
  | some val =>
      rw [hl] at hf
      cases hr : renderTemplate env val a u with
      | error e2 => simp_all
      | ok templated => simp_all

theorem titleStep_ok (svr : Config) (env : Env) (body : String) (u : Option String)
    (a : Alert) (s : TState) (hf : titleFailureMsg svr env u a = none) :
    ∃ rendered, titleStep svr env body u a s = { s with title := s.title ++ rendered } := by
  unfold titleFailureMsg at hf
  unfold titleStep
  cases hl : lookupAnn a.Annotations svr.titleAnnotation with
  | none => simp_all
  | some val =>
      rw [hl] at hf
      cases hr : renderTemplate env val a u with
      | error e2 => simp_all
      | ok templated => exact ⟨templated, by simp [hl, hr, titleStep]⟩

theorem messageStep_fail (svr : Config) (env : Env) (body : String) (u : Option String)
    (a : Alert) (s : TState) (e : String) (hd : svr.dispatchErrors = true)
    (hf : messageFailureMsg svr env u a = some e) :
    messageStep svr env body u a s =
      { s with proceed := true, title := "Alertmanager-Gotify-Bridge Error",
               message := dispatchErrMsg e body, text := [e], respCode := 400 } := by
  unfold messageFailureMsg at hf
  unfold messageStep
  cases hl : lookupAnn a.Annotations svr.messageAnnotation with
  | none => simp_all
  | some val =>
      rw [hl] at hf
      cases hr : renderTemplate env val a u with
      | error e2 => simp_all
      | ok rendered => simp_all

theorem messageStep_ok (svr : Config) (env : Env) (body : String) (u : Option String)
    (a : Alert) (s : TState) (hf : messageFailureMsg svr env u a = none) :
    ∃ rendered, messageStep svr env body u a s = { s with message := rendered } := by
  unfold messageFailureMsg at hf
  unfold messageStep
  cases hl : lookupAnn a.Annotations svr.messageAnnotation with
  | none => simp_all
  | some val =>
      rw [hl] at hf
      cases hr : renderTemplate env val a u with
      | error e2 => simp_all
      | ok rendered => exact ⟨rendered, by simp [hl, hr, messageStep]⟩

theorem priorityStep_parts (svr : Config) (a : Alert) (s : TState) :
    ∃ p, priorityStep svr a s = { s with priority := p } := by
  unfold priorityStep
  cases hl : lookupAnn a.Annotations svr.priorityAnnotation with
  | none => exact ⟨s.priority, by simp⟩
  | some val =>
      cases hp : goAtoi val with
      | none => exact ⟨s.priority, by simp [hp]⟩
      | some tmp => exact ⟨tmp, by simp [hp]⟩

theorem extendedBlock2_parts (e : Bool) (a : Alert) (s : TState) :
    ((extendedBlock2 e a s).1).proceed = s.proceed ∧
      ((extendedBlock2 e a s).1).title = s.title ∧
      ∃ suf, ((extendedBlock2 e a s).1).message = s.message ++ suf := by
  unfold extendedBlock2
  split_ifs <;> refine ⟨by simp, by simp, ?_⟩
  · exact ⟨"<br/><a href=\x27" ++ a.GeneratorURL ++ "\x27>go to source</a>" ++
        startsAtNotePre ++ a.StartsAt.take 19 ++ startsAtNoteSuf,
      by simp [String.append_assoc]⟩
  · exact ⟨"<br/><a href=\x27" ++ a.GeneratorURL ++ "\x27>go to source</a>",
      by simp [String.append_assoc]⟩
  · exact ⟨"<br/><a href=\x27" ++ a.GeneratorURL ++ "\x27>go to source</a>",
      by simp [String.append_assoc]⟩
  · exact ⟨startsAtNotePre ++ a.StartsAt.take 19 ++ startsAtNoteSuf,
      by simp [String.append_assoc]⟩
  · exact ⟨"", by simp⟩
  · exact ⟨"", by simp⟩
  · exact ⟨"", by simp⟩

theorem priorityStep_proceed (svr : Config) (a : Alert) (s : TState) :
    (priorityStep svr a s).proceed = s.proceed := by
  obtain ⟨p, hp⟩ := priorityStep_parts svr a s
  rw [hp]

theorem priorityStep_title (svr : Config) (a : Alert) (s : TState) :
    (priorityStep svr a s).title = s.title := by
  obtain ⟨p, hp⟩ := priorityStep_parts svr a s
  rw [hp]

theorem priorityStep_message (svr : Config) (a : Alert) (s : TState) :
    (priorityStep svr a s).message = s.message := by
  obtain ⟨p, hp⟩ := priorityStep_parts svr a s
  rw [hp]

/-! Claim theorems. -/

/-- C3: the startup missing-credential exit branch is unreachable.  The
token read from GOTIFY_TOKEN is unconditionally overwritten with the
literal "1" before the emptiness test, so startup with an empty
GOTIFY_TOKEN does not reach the error/exit branch (`none`): the check
always yields `some "1"`, for the empty environment value in particular,
contradicting the claim and the code's own error message. -/
theorem startup_token_check_unreachable :
    startupTokenCheck "" = some "1" ∧ startupTokenCheck "" ≠ none ∧
      ∀ e, startupTokenCheck e = some "1" :=
  ⟨rfl, by simp [startupTokenCheck], fun _ => rfl⟩

/-- C4: every outbound POST carries `requestToken` as its X-Gotify-Key
header value; a non-empty `?token=X` query parameter yields X as claimed,
but the fallback is the configured startup token — which, because of the
unconditional overwrite at startup, is always the literal "1" and never
the GOTIFY_TOKEN environment value (e.g. "secret"). -/
theorem gotify_key_header_selection :
    (∀ (svr : Config) (env : Env) (qt body : String) (m0 : Metrics),
       ∀ p ∈ (handleCall svr env qt body m0).sent, p.2 = requestToken svr.gotifyToken qt)
    ∧ (∀ tok x : String, x ≠ "" → requestToken tok x = x)
    ∧ (∀ tok : String, requestToken tok "" = tok)
    ∧ startupTokenCheck "secret" = some "1" ∧ ("1" : String) ≠ "secret" := by
  refine ⟨handleCall_sent_token, ?_, ?_, rfl, by decide⟩
  · intro tok x hx
    simp [requestToken, hx]
  · intro tok
    simp [requestToken]

/-- C4 witness: the header-selection theorem applied at concrete inputs —
a request with `?token=X` dispatches with header X, and a request without
one dispatches with the configured token. -/
theorem gotify_key_header_selection_witness :
    requestToken "1" "X" = "X" ∧ requestToken "1" "" = "1" ∧
      ((⟨"t", "m", 7, []⟩ : GotifyNotification), "tok").2
        = requestToken svrBase.gotifyToken "" :=
  ⟨gotify_key_header_selection.2.1 "1" "X" (by decide),
   gotify_key_header_selection.2.2.1 "1",
   gotify_key_header_selection.1 svrBase envC2 "" "B" zeroMetrics
     (⟨"t", "m", 7, []⟩, "tok") (by decide)⟩

/-- C7 counterexample: with the default 5s timeout (5,000,000,000 ns),
the timeout handed to the outbound HTTP client is 5e18 ns (about 158
years) — the configured duration multiplied once more by time.Second —
so the client timeout does not equal the configured timeout. -/
theorem clientTimeout_not_configured_cex :
    clientTimeout svrBase = 5000000000000000000 ∧ svrBase.timeout = 5000000000 ∧
      clientTimeout svrBase ≠ svrBase.timeout := by
  refine ⟨by decide, rfl, by decide⟩

/-- C7 amended: for every positive configured timeout (up to the value
where the 64-bit product would overflow), the outbound client's timeout
is the configured duration scaled by 10^9 — never the configured duration
itself; and a `client.Do` error still surfaces as a per-alert error
result: the loop appends the error text, sets a 500 response code,
increments `alerts_failed` and continues, rather than panicking. -/
theorem clientTimeout_scaling_and_error_surfacing :
    (∀ svr : Config, 0 < svr.timeout → svr.timeout ≤ 9223372036 →
       clientTimeout svr = svr.timeout * 1000000000 ∧ clientTimeout svr ≠ svr.timeout)
    ∧ (∀ (svr : Config) (env : Env) (idx : Nat) (token e : String)
        (o : GotifyNotification) (st : LoopState),
        env.dispatch (clientTimeout svr) svr.gotifyEndpoint o token =
          DispatchResult.networkError e →
        dispatchStep svr env idx token o st =
          StepResult.next { st with
            sent := st.sent ++ [(o, token)]
            respCode := 500
            text := st.text ++ [e]
            metrics := { st.metrics with alerts_failed := st.metrics.alerts_failed + 1 } }) := by
  constructor
  · intro svr h1 h2
    have p63 : (0 : Int) < 2 ^ 63 := by norm_num
    have e1 : 0 ≤ svr.timeout * 1000000000 + 2 ^ 63 := by nlinarith
    have e2 : svr.timeout * 1000000000 + 2 ^ 63 < 2 ^ 64 := by nlinarith
    have heq : clientTimeout svr = svr.timeout * 1000000000 := by
      unfold clientTimeout int64wrap
      rw [Int.emod_eq_of_lt e1 e2]
      ring
    refine ⟨heq, ?_⟩
    rw [heq]
    have hgt : svr.timeout < svr.timeout * 1000000000 := by nlinarith
    exact fun hc => absurd hc (by omega)
  · intro svr env idx token e o st h
    simp [dispatchStep, h]

/-- C7 witness: the scaling theorem applied to the default configuration,
and the error-surfacing branch applied to a failing downstream. -/
theorem clientTimeout_scaling_witness :
    (clientTimeout svrBase = svrBase.timeout * 1000000000 ∧
        clientTimeout svrBase ≠ svrBase.timeout)
    ∧ dispatchStep svrBase envNet 0 "tok" obW stW1 =
        StepResult.next { stW1 with
          sent := [(obW, "tok")]
          respCode := 500
          text := ["dial tcp: connection refused"]
          metrics := { zeroMetrics with alerts_failed := 1 } } :=
  ⟨clientTimeout_scaling_and_error_surfacing.1 svrBase (by decide) (by decide),
   clientTimeout_scaling_and_error_surfacing.2 svrBase envNet 0 "tok"
     "dial tcp: connection refused" obW stW1 rfl⟩

/-- C9: a template containing any denylisted function token (as `{{func`
or `{{ func`, braces written `\x7b`) is rejected before evaluation: the
result is a "does not support the function" error naming an offending
denylisted function whose token occurs in the template, for every
environment (so the expander is never consulted); and when the given
function is the only denylisted token present, the error names exactly
that function. -/
theorem renderTemplate_denylist_rejects (t f : String) (hf : f ∈ denyList)
    (h : hasFuncToken t f = true) :
    ∃ g, g ∈ denyList ∧ hasFuncToken t g = true ∧
      (∀ (env : Env) (a : Alert) (u : Option String),
        renderTemplate env t a u =
          Except.error ("error in Template: The bridge does not support the function " ++ g)) ∧
      ((∀ g2 ∈ denyList, g2 ≠ f → hasFuncToken t g2 = false) → g = f) := by
  cases hg : unsupportedFuncOf t with
  | none =>
      have := unsupportedFuncOf_none hg f hf
      simp [h] at this
  | some g =>
      obtain ⟨hmem, htok⟩ := unsupportedFuncOf_mem hg
      refine ⟨g, hmem, htok, ?_, ?_⟩
      · intro env a u
        simp [renderTemplate, hg]
      · intro huniq
        have h2 := unsupportedFuncOf_first h hf huniq
        rw [hg] at h2
        exact Option.some_inj.mp h2

/-- C9 witness: the rejection theorem applied to a concrete template
containing `\x7b\x7b query`. -/
theorem renderTemplate_denylist_rejects_witness :
    ∃ g, g ∈ denyList ∧ hasFuncToken "\x7b\x7b query up\x7d\x7d" g = true ∧
      (∀ (env : Env) (a : Alert) (u : Option String),
        renderTemplate env "\x7b\x7b query up\x7d\x7d" a u =
          Except.error ("error in Template: The bridge does not support the function " ++ g)) ∧
      ((∀ g2 ∈ denyList, g2 ≠ "query" → hasFuncToken "\x7b\x7b query up\x7d\x7d" g2 = false) →
        g = "query") :=
  renderTemplate_denylist_rejects "\x7b\x7b query up\x7d\x7d" "query" (by decide) (by decide)

/-- C5 counterexample: with extended details enabled, a request whose
single alert carries both annotations and the non-empty start time
"2023" (shorter than 19 bytes) drives the handler into the out-of-range
byte slice `alert.StartsAt[:19]`: the request panics instead of being
processed to completion, refuting the claim for that alert. -/
theorem handleCall_short_startsAt_panics :
    (handleCall svrExt envC5 "" "B" zeroMetrics).outcome = Outcome.panicked ∧
      (2023 : Nat) > 0 ∧ ("2023" : String).length < 19 := by
  refine ⟨rfl, by decide, by decide⟩

/-- C5 amended: handling completes without a panic whenever every alert
in the parsed batch has an empty start time or one of at least 19 bytes;
for such alerts the extended-details decoration indeed appends the first
19 characters of StartsAt.  A non-empty StartsAt shorter than 19 bytes
panics instead (see the counterexample). -/
theorem handleCall_no_panic_with_long_startsAt :
    (∀ (svr : Config) (env : Env) (qt body : String) (m0 : Metrics),
       (∀ n, env.unmarshal body = Except.ok n →
         ∀ a ∈ n.Alerts, a.StartsAt = "" ∨ 19 ≤ a.StartsAt.length) →
       (handleCall svr env qt body m0).outcome ≠ Outcome.panicked)
    ∧ (∀ (a : Alert) (s : TState), a.StartsAt ≠ "" → 19 ≤ a.StartsAt.length →
        (extendedBlock2 true a s).2 = false ∧
        ∃ pre, ((extendedBlock2 true a s).1).message =
          pre ++ startsAtNotePre ++ a.StartsAt.take 19 ++ startsAtNoteSuf) :=
  ⟨handleCall_not_panic, fun a s h1 h2 => extendedBlock2_decoration a s h1 h2⟩

/-- C5 witness: the no-panic theorem applied to a request whose single
alert has a full RFC3339 start time. -/
theorem handleCall_no_panic_witness :
    (handleCall svrExt envC5w "" "B" zeroMetrics).outcome ≠ Outcome.panicked :=
  handleCall_no_panic_with_long_startsAt.1 svrExt envC5w "" "B" zeroMetrics
    (by
      intro n h a ha
      simp [envC5w] at h
      subst h
      simp at ha
      subst ha
      right
      decide)

/-- C6 counterexample: two batches identical except for alert 0's
ExternalURL ("http://one.example" versus empty); alert 1 — identical in
both batches, with an empty ExternalURL — is dispatched with different
outbound titles, because the handler-scoped externalURL variable carries
alert 0's parsed URL into alert 1's rendering instead of leaving the URL
absent. -/
theorem stale_externalURL_cex :
    (handleCall svrBase envC6 "" "b1" zeroMetrics).sent.map (fun p => p.1.Title)
        = ["Thttp://one.example", "Thttp://one.example"]
      ∧ (handleCall svrBase envC6 "" "b2" zeroMetrics).sent.map (fun p => p.1.Title)
        = ["T", "T"]
      ∧ (extAlert "").ExternalURL = ""
      ∧ ("Thttp://one.example" : String) ≠ "T" := by
  refine ⟨rfl, rfl, rfl, by decide⟩

/-- C6 amended: within one batch, the outbound notification dispatched
for an alert is a function of that alert, the configuration, the request
token and the externalURL value carried over in the loop state: two loop
states agreeing on that value produce the same newly dispatched
(notification, header) pairs; and an alert with an empty ExternalURL is
rendered with exactly the carried-over URL — absent only when no earlier
alert set one — not always with an absent URL. -/
theorem processAlert_outbound_dependence :
    (∀ (svr : Config) (env : Env) (body token : String) (idx : Nat) (a : Alert)
       (st st' : LoopState), st.externalURL = st'.externalURL →
       sentDelta (processAlert svr env body token idx a st) st
         = sentDelta (processAlert svr env body token idx a st') st')
    ∧ (∀ (env : Env) (carried : Option String) (a : Alert), a.ExternalURL = "" →
        effectiveExternalURL env carried a = carried) :=
  ⟨processAlert_sent_dep,
   fun env carried a h => by simp [effectiveExternalURL, h]⟩

/-- C6 witness: the dependence theorem applied to two concrete loop
states differing in response text and code but agreeing on the carried
external URL, and the carried-URL equation at a concrete alert. -/
theorem processAlert_outbound_dependence_witness :
    sentDelta (processAlert svrBase envC2 "B" "tok" 0 (extAlert "") stW1) stW1
      = sentDelta (processAlert svrBase envC2 "B" "tok" 0 (extAlert "") stW2) stW2
    ∧ effectiveExternalURL envC2 (some "http://one.example") (extAlert "")
        = some "http://one.example" :=
  ⟨processAlert_outbound_dependence.1 svrBase envC2 "B" "tok" 0 (extAlert "") stW1 stW2 rfl,
   processAlert_outbound_dependence.2 envC2 (some "http://one.example") (extAlert "") rfl⟩

/-- C8 counterexample: title annotation missing, message annotation
present and rendering successfully, dispatch-errors enabled: the
transform yields proceed = true and the error title as claimed, but the
outbound message is the rendered message annotation "hello" — which does
not contain the raw body "RAW" — because the successful message render
overwrote the diagnostic set by the title failure, refuting the claim's
"message replaced by a diagnostic" part. -/
theorem dispatch_errors_message_cex :
    ((transformAlert svrDisp false envId "RAW" none alC8 [] 200).1).proceed = true
    ∧ ((transformAlert svrDisp false envId "RAW" none alC8 [] 200).1).title
        = "Alertmanager-Gotify-Bridge Error"
    ∧ ((transformAlert svrDisp false envId "RAW" none alC8 [] 200).1).message = "hello"
    ∧ strContains "hello" "RAW" = false
    ∧ strContains (dispatchErrMsg "Missing annotation: summary" "RAW") "RAW" = true := by
  refine ⟨rfl, rfl, rfl, by decide, by decide⟩

/-- C8 amended: for every alert that fails the title or the message step
(missing annotation or render failure) with dispatch-errors enabled, the
transform yields proceed = true and title exactly
"Alertmanager-Gotify-Bridge Error"; and whenever the message step itself
failed, the outbound message starts with the diagnostic built from that
error and the raw inbound payload (extended-details decorations may
follow).  When only the title step failed and the message annotation
renders successfully, the rendered message replaces the diagnostic. -/
theorem transform_dispatch_errors_override (svr : Config) (e : Bool) (env : Env)
    (body : String) (u : Option String) (a : Alert) (t0 : List String) (r0 : Nat)
    (hd : svr.dispatchErrors = true)
    (hfail : titleFailureMsg svr env u a ≠ none ∨ messageFailureMsg svr env u a ≠ none) :
    ((transformAlert svr e env body u a t0 r0).1).proceed = true ∧
      ((transformAlert svr e env body u a t0 r0).1).title = "Alertmanager-Gotify-Bridge Error" ∧
      ∀ e2, messageFailureMsg svr env u a = some e2 →
        ∃ suf, ((transformAlert svr e env body u a t0 r0).1).message =
          dispatchErrMsg e2 body ++ suf := by
  unfold transformAlert
  set s1 := extendedBlock1 e a (initTState svr t0 r0) with hs1
  cases hm : messageFailureMsg svr env u a with
  | some e2 =>
      rw [messageStep_fail svr env body u a (titleStep svr env body u a s1) e2 hd hm]
      refine ⟨?_, ?_, ?_⟩
      · rw [(extendedBlock2_parts e a _).1, priorityStep_proceed]
      · rw [(extendedBlock2_parts e a _).2.1, priorityStep_title]
      · intro e3 he3
        obtain rfl : e2 = e3 := Option.some_inj.mp he3
        obtain ⟨suf, hsuf⟩ := (extendedBlock2_parts e a _).2.2
        rw [priorityStep_message] at hsuf
        exact ⟨suf, by simpa using hsuf⟩
  | none =>
      rcases hfail with hft | hfm
      · cases hf : titleFailureMsg svr env u a with
        | none => exact absurd hf hft
        | some e1 =>
            obtain ⟨rendered, hrend⟩ :=
              messageStep_ok svr env body u a (titleStep svr env body u a s1) hm
            rw [hrend, titleStep_fail svr env body u a s1 e1 hd hf]
            refine ⟨?_, ?_, ?_⟩
            · rw [(extendedBlock2_parts e a _).1, priorityStep_proceed]
            · rw [(extendedBlock2_parts e a _).2.1, priorityStep_title]
            · intro e3 he3
              simp at he3
      · exact absurd hm hfm

/-- C8 witness: the override theorem applied to an alert missing both
annotations, with dispatch-errors enabled. -/
theorem transform_dispatch_errors_override_witness :
    ((transformAlert svrDisp false envId "RAW" none (mkAnnAlert []) [] 200).1).proceed = true ∧
      ((transformAlert svrDisp false envId "RAW" none (mkAnnAlert []) [] 200).1).title
        = "Alertmanager-Gotify-Bridge Error" ∧
      ∀ e2, messageFailureMsg svrDisp envId none (mkAnnAlert []) = some e2 →
        ∃ suf, ((transformAlert svrDisp false envId "RAW" none (mkAnnAlert []) [] 200).1).message =
          dispatchErrMsg e2 "RAW" ++ suf :=
  transform_dispatch_errors_override svrDisp false envId "RAW" none (mkAnnAlert []) [] 200
    rfl (Or.inl (by decide))

/-- C1: evaluation of `handleCall` on the claimed 3-alert batch (alerts 0
and 2 carry both annotations and render fine with the downstream
answering 200, alert 1 misses the message annotation; dispatch-errors and
debug disabled).  The response status is 400 and `alerts_processed` rises
by exactly 2, as claimed; but the aggregated body has only 2 lines — the
failure note overwrote the earlier success note — and `alerts_invalid`
stays 0, because its increment (and the invalid-alert response handling)
sits inside the debug-only branch, contradicting the claim and the
repository's own description of the `alerts_invalid` metric. -/
theorem handleCall_three_alert_batch_eval :
    handleCall svrBase envC1 "" "B" zeroMetrics =
      ⟨Outcome.response "Missing annotation: description\nMessage 2 dispatched" 400,
       ⟨1, 0, 3, 0, 2, 0⟩,
       [(⟨"t1", "m1", 5, []⟩, "tok"), (⟨"t3", "m3", 5, []⟩, "tok")]⟩
    ∧ "Missing annotation: description\nMessage 2 dispatched"
        = String.intercalate "\n" ["Missing annotation: description", "Message 2 dispatched"]
    ∧ (["Missing annotation: description", "Message 2 dispatched"] : List String).length = 2
    ∧ (2 : Nat) ≠ 3 := by
  refine ⟨rfl, rfl, by decide, by decide⟩

/-- C2 counterexample: an alert whose priority annotation "7" parses
successfully is dispatched with priority 7, not the configured default 5:
the handler applies the parsed value on a successful parse, refuting the
claim that a successful parse leaves the default in place. -/
theorem priority_applied_on_success_cex :
    (handleCall svrBase envC2 "" "B" zeroMetrics).sent.map (fun p => p.1.Priority) = [7]
      ∧ svrBase.defaultPriority = 5 ∧ (7 : Int) ≠ 5 := by
  refine ⟨rfl, rfl, by decide⟩

/-- C2 amended: in the current handler (`handleCall`), the parsed
priority is applied exactly when `strconv.Atoi` succeeds; the configured
default is kept when parsing fails or the annotation is absent.  The
behaviour the claim describes — the parsed value applied only when
parsing fails, the default kept on success — is that of the legacy
`handle_call` variant (main.go), whose branch is shown to skip the
parsed value on a successful parse. -/
theorem priority_branch_semantics :
    (∀ (svr : Config) (a : Alert) (s : TState) (val : String) (v : Int),
       lookupAnn a.Annotations svr.priorityAnnotation = some val →
       goAtoi val = some v → (priorityStep svr a s).priority = v)
    ∧ (∀ (svr : Config) (a : Alert) (s : TState) (val : String),
       lookupAnn a.Annotations svr.priorityAnnotation = some val →
       goAtoi val = none → (priorityStep svr a s).priority = s.priority)
    ∧ (∀ (svr : Config) (a : Alert) (s : TState),
       lookupAnn a.Annotations svr.priorityAnnotation = none →
       (priorityStep svr a s).priority = s.priority)
    ∧ (∀ (svr : Config) (a : Alert) (s : TState) (val : String) (v : Int),
       lookupAnn a.Annotations svr.priorityAnnotation = some val →
       goAtoi val = some v → (legacyPriorityStep svr a s).priority = s.priority) := by
  refine ⟨?_, ?_, ?_, ?_⟩
  · intro svr a s val v h1 h2
    simp [priorityStep, h1, h2]
  · intro svr a s val h1 h2
    simp [priorityStep, h1, h2]
  · intro svr a s h1
    simp [priorityStep, h1]
  · intro svr a s val v h1 h2
    rcases hraw : goAtoiRaw val with ⟨w, ok⟩
    simp only [goAtoi, hraw] at h2
    cases ok with
    | false => simp at h2
    | true => simp [legacyPriorityStep, h1, hraw]

/-- C2 witness: the priority semantics applied at concrete inputs — the
annotation "7" yields priority 7 in the current handler and leaves the
default untouched in the legacy variant. -/
theorem priority_branch_semantics_witness :
    (priorityStep svrBase alPrio (initTState svrBase [] 200)).priority = 7
      ∧ (legacyPriorityStep svrBase alPrio (initTState svrBase [] 200)).priority = 5 := by
  constructor
  · exact priority_branch_semantics.1 svrBase alPrio (initTState svrBase [] 200) "7" 7
      (by decide) (by decide)
  · have h := priority_branch_semantics.2.2.2 svrBase alPrio (initTState svrBase [] 200) "7" 7
      (by decide) (by decide)
    rw [h]
    rfl

/-- C10: `Values()` on the value string
"[ metric=\x27up\x27 labels=\x7bjob=api\x7d value=0 ]" yields exactly one
record with metric "up", labels mapping job to api and value 0 (for any
value parser mapping "0" to 0); and for every alert and every matched
record whose value text fails to parse, the record's value is -1 — and
no error is produced, `Values` being a total function into a list. -/
theorem values_example_and_minus_one (pf : String → Option Rat) (h0 : pf "0" = some 0) :
    Alert.Values pf exampleValueAlert = [⟨"up", [("job", "api")], 0⟩]
    ∧ ∀ (a : Alert) (i : Nat) (hi : i < (valuesRaw a.ValueString).length),
        pf ((valuesRaw a.ValueString).get ⟨i, hi⟩).2.2 = none →
        ((Alert.Values pf a).get ⟨i, by simpa [Alert.Values] using hi⟩).Value = -1 := by
  constructor
  · unfold Alert.Values
    rw [show valuesRaw exampleValueAlert.ValueString = [("up", "job=api", "0")] from rfl]
    simp [h0]
    rfl
  · intro a i hi hp
    rw [List.get_eq_getElem] at hp
    simp [Alert.Values, List.get_eq_getElem, List.getElem_map, hp]

/-- C10 witness: the `Values()` theorem applied to the concrete parser
`pf0`, plus its unparseable-value part applied to a record whose value
text is "xx". -/
theorem values_example_and_minus_one_witness :
    Alert.Values pf0 exampleValueAlert = [⟨"up", [("job", "api")], 0⟩]
      ∧ ((Alert.Values pf0 badValueAlert).get
          ⟨0, by simpa [Alert.Values] using (by decide :
            0 < (valuesRaw badValueAlert.ValueString).length)⟩).Value = -1 :=
  ⟨(values_example_and_minus_one pf0 (by decide)).1,
   (values_example_and_minus_one pf0 (by decide)).2 badValueAlert 0 (by decide) (by decide)⟩

end Bridge
